import Mathlib

/-!
Verification of the mockflow repository (an in-process mock of the Airflow
REST surface). The Python source is shallowly embedded: Python dicts become
insertion-ordered association lists, datetimes become integers (epoch
seconds), in-place mutation becomes explicit state passing, and raised
HTTP exceptions become `Except` results paired with the (unchanged) store.
-/

set_option autoImplicit false
set_option synthInstance.maxSize 2000

/-! ## Association lists modelling Python dicts

Python dicts preserve insertion order; updating an existing key keeps its
position. `aget` is `d.get(k)`, `aset` is `d[k] = v`, `adel` is `del d[k]`,
`avalues` is `d.values()`, `acontains` is `k in d`. -/

def aget {κ α : Type} [DecidableEq κ] (m : List (κ × α)) (k : κ) : Option α :=
  match m with
  | [] => none
  | (k1, v1) :: rest => if k1 = k then some v1 else aget rest k

def aset {κ α : Type} [DecidableEq κ] (m : List (κ × α)) (k : κ) (v : α) : List (κ × α) :=
  match m with
  | [] => [(k, v)]
  | (k1, v1) :: rest => if k1 = k then (k, v) :: rest else (k1, v1) :: aset rest k v

def adel {κ α : Type} [DecidableEq κ] (m : List (κ × α)) (k : κ) : List (κ × α) :=
  match m with
  | [] => []
  | (k1, v1) :: rest => if k1 = k then rest else (k1, v1) :: adel rest k

def avalues {κ α : Type} (m : List (κ × α)) : List α := m.map Prod.snd

def acontains {κ α : Type} [DecidableEq κ] (m : List (κ × α)) (k : κ) : Bool :=
  (aget m k).isSome

/-! ## Entity models (models.py)

Pydantic models become plain records. `datetime` fields are `Int` (epoch
seconds), `Optional[datetime]` is `Option Int`, `float` durations are `Int`
seconds, and JSON-valued (`dict`/`Any`) payload fields — which no logic in
the repository ever inspects — are carried as strings or string pairs. -/

structure DAG where
  dag_id : String
  is_paused : Bool := false
  is_active : Bool := true
  last_parsed_time : Int := 0
  last_pickled : Int := 0
  last_expired : Int := 0
  scheduler_lock : Option Bool := none
  pickle_id : Option String := none
  fileloc : String := "/tmp/dag.py"
  owners : List String := []
  description : Option String := none
  schedule_interval : Option String := none
  tags : List String := []
deriving DecidableEq, Repr

structure DAGRun where
  dag_id : String
  run_id : String
  execution_date : Int := 0
  start_date : Option Int := none
  end_date : Option Int := none
  state : String := "running"
  external_trigger : Bool := false
  conf : List (String × String) := []
deriving DecidableEq, Repr

structure TaskInstance where
  task_id : String
  dag_id : String
  run_id : String
  state : String := "none"
  try_number : Int := 1
  max_tries : Int := 0
  start_date : Option Int := none
  end_date : Option Int := none
  duration : Option Int := none
  pool : String := "default_pool"
  queue : String := "default"
  priority_weight : Int := 1
  operator : String := "PythonOperator"
  queued_when : Option Int := none
  queued_by_job_id : Option String := none
  pid : Option Int := none
  executor_config : List (String × String) := []
  sla_miss : Option Int := none
  rendered_fields : List (String × String) := []
deriving DecidableEq, Repr

structure TaskInstanceActionResponse where
  task_id : String
  dag_id : String
  run_id : String
  state : String
  message : String
deriving DecidableEq, Repr

structure TaskLog where
  try_number : Int
  content : String
  timestamp : Int := 0
deriving DecidableEq, Repr

structure ClearTaskInstance where
  dry_run : Bool := false
  start_date : Option Int := none
  end_date : Option Int := none
  only_failed : Bool := false
  only_running : Bool := false
  include_subdags : Bool := false
  include_parentdag : Bool := false
  reset_dag_runs : Bool := false
deriving DecidableEq, Repr

structure Variable where
  key : String
  value : String
  description : Option String := none
deriving DecidableEq, Repr

structure Connection where
  conn_id : String
  conn_type : String
  host : Option String := none
  port : Option Int := none
  login : Option String := none
  password : Option String := none
  connection_schema : Option String := none
  extra : Option String := none
deriving DecidableEq, Repr

structure XCom where
  key : String
  value : String
  timestamp : Int := 0
  execution_date : Int := 0
  task_id : String
  dag_id : String
  run_id : Option String := none
  description : Option String := none
deriving DecidableEq, Repr

structure Pool where
  name : String
  slots : Int
  description : Option String := none
  occupied_slots : Int := 0
  queued_slots : Int := 0
  running_slots : Int := 0
  open_slots : Option Int := none
deriving DecidableEq, Repr

/-- Constructor of `Pool` (models.py `Pool.__init__`): whatever `open_slots`
value the caller supplies, `__init__` overwrites it with
`slots - occupied_slots` after `super().__init__`. -/
def mkPool (name : String) (slots : Int) (description : Option String)
    (occupied_slots queued_slots running_slots : Int) (open_slots_in : Option Int) : Pool :=
  let p : Pool := { name := name, slots := slots, description := description,
                    occupied_slots := occupied_slots, queued_slots := queued_slots,
                    running_slots := running_slots, open_slots := open_slots_in }
  { p with open_slots := some (p.slots - p.occupied_slots) }

structure ProviderHook where
  hook_class_name : String
  connection_type : String
  hook_name : String
  package_name : String
  description : Option String := none
deriving DecidableEq, Repr

structure Provider where
  package_name : String
  description : Option String := none
  version : String
  provider_name : String
  hooks : List ProviderHook := []
  extra_links : List String := []
  connection_form : Option String := none
deriving DecidableEq, Repr

/-! ## Instance store (store.py, class InstanceStore)

Each nested dict becomes a nested association list. Methods that mutate
`self` return the new store. -/

structure InstanceStore where
  instance_id : String
  dags : List (String × DAG) := []
  dag_runs : List (String × List (String × DAGRun)) := []
  task_instances : List (String × List (String × List (String × TaskInstance))) := []
  task_logs : List (String × List (String × List (String × List (Int × TaskLog)))) := []
  variables_ : List (String × Variable) := []
  connections : List (String × Connection) := []
  xcoms : List (String × List (String × List (String × List (String × XCom)))) := []
  pools : List (String × Pool) := []
  providers : List (String × Provider) := []
deriving DecidableEq, Repr

/-- Constructor `InstanceStore.__init__`: every collection starts empty. -/
def InstanceStore.init (instance_id : String) : InstanceStore :=
  { instance_id := instance_id }

def InstanceStore.add_dag (s : InstanceStore) (dag : DAG) : InstanceStore :=
  { s with dags := aset s.dags dag.dag_id dag }

def InstanceStore.get_dag (s : InstanceStore) (dag_id : String) : Option DAG :=
  aget s.dags dag_id

def InstanceStore.add_dag_run (s : InstanceStore) (dag_run : DAGRun) : InstanceStore :=
  let inner := (aget s.dag_runs dag_run.dag_id).getD []
  { s with dag_runs := aset s.dag_runs dag_run.dag_id (aset inner dag_run.run_id dag_run) }

def InstanceStore.get_dag_run (s : InstanceStore) (dag_id run_id : String) : Option DAGRun :=
  aget ((aget s.dag_runs dag_id).getD []) run_id

def InstanceStore.add_task_instance (s : InstanceStore) (task_instance : TaskInstance) : InstanceStore :=
  let byDag := (aget s.task_instances task_instance.dag_id).getD []
  let byRun := (aget byDag task_instance.run_id).getD []
  let byRun2 := aset byRun task_instance.task_id task_instance
  let byDag2 := aset byDag task_instance.run_id byRun2
  { s with task_instances := aset s.task_instances task_instance.dag_id byDag2 }

def InstanceStore.get_task_instance (s : InstanceStore) (dag_id run_id task_id : String) :
    Option TaskInstance :=
  aget (((aget ((aget s.task_instances dag_id).getD []) run_id).getD [])) task_id

def InstanceStore.add_task_log (s : InstanceStore) (dag_id run_id task_id : String)
    (try_number : Int) (log : TaskLog) : InstanceStore :=
  let byDag := (aget s.task_logs dag_id).getD []
  let byRun := (aget byDag run_id).getD []
  let byTask := (aget byRun task_id).getD []
  let byTask2 := aset byTask try_number log
  let byRun2 := aset byRun task_id byTask2
  let byDag2 := aset byDag run_id byRun2
  { s with task_logs := aset s.task_logs dag_id byDag2 }

def InstanceStore.get_task_log (s : InstanceStore) (dag_id run_id task_id : String)
    (try_number : Int) : Option TaskLog :=
  aget ((aget ((aget ((aget s.task_logs dag_id).getD []) run_id).getD []) task_id).getD [])
    try_number

/-- Helper for the in-place field resets of store.py `clear_task_instance`. -/
def TaskInstance.toCleared (ti : TaskInstance) : TaskInstance :=
  { ti with state := "none", try_number := 1,
            start_date := none, end_date := none, duration := none }

def InstanceStore.clear_task_instance (s : InstanceStore) (task_instance : TaskInstance) :
    InstanceStore :=
  s.add_task_instance task_instance.toCleared

/-- Truthiness of a Python `Optional[str]`: `None` and `""` are falsy. -/
def strTruthy : Option String → Bool
  | none => false
  | some s => s != ""

def InstanceStore.add_xcom_value (s : InstanceStore) (xcom : XCom) : InstanceStore :=
  let byDag := (aget s.xcoms xcom.dag_id).getD []
  let byTask := (aget byDag xcom.task_id).getD []
  let byKey := (aget byTask xcom.key).getD []
  -- the source stores the entry only when `xcom.run_id` is truthy
  let byKey2 := match xcom.run_id with
    | some rid => if rid = "" then byKey else aset byKey rid xcom
    | none => byKey
  let byTask2 := aset byTask xcom.key byKey2
  let byDag2 := aset byDag xcom.task_id byTask2
  { s with xcoms := aset s.xcoms xcom.dag_id byDag2 }

/-- Values of the innermost XCom dict for `(dag_id, task_id, key)`, in
insertion order (source line `self.xcoms.get(...).get(...).get(...).values()`). -/
def InstanceStore.xcomEntries (s : InstanceStore) (dag_id task_id key : String) : List XCom :=
  avalues ((aget ((aget ((aget s.xcoms dag_id).getD []) task_id).getD []) key).getD [])

/-- Accumulator step of Python `max(xcoms, key=lambda x: x.timestamp)`:
the running maximum is replaced only on a strictly greater key, so the
first maximal element in iteration order wins. -/
def xcomStep (acc y : XCom) : XCom :=
  if y.timestamp > acc.timestamp then y else acc

def maxByTimestamp : List XCom → Option XCom
  | [] => none
  | x :: xs => some (xs.foldl xcomStep x)

def InstanceStore.get_xcom_value (s : InstanceStore) (dag_id task_id key : String)
    (run_id : Option String) : Option XCom :=
  match run_id with
  | some rid =>
    if rid = "" then
      -- a falsy (empty) run_id falls through to the most-recent branch
      maxByTimestamp (s.xcomEntries dag_id task_id key)
    else
      aget ((aget ((aget ((aget s.xcoms dag_id).getD []) task_id).getD []) key).getD []) rid
  | none => maxByTimestamp (s.xcomEntries dag_id task_id key)

def InstanceStore.add_pool (s : InstanceStore) (pool : Pool) : InstanceStore :=
  { s with pools := aset s.pools pool.name pool }

def InstanceStore.get_pool (s : InstanceStore) (name : String) : Option Pool :=
  aget s.pools name

def InstanceStore.update_pool_slots (s : InstanceStore) (name : String)
    (occupied queued running : Int) : InstanceStore × Option Pool :=
  match s.get_pool name with
  | some pool =>
    let pool' := { pool with occupied_slots := occupied, queued_slots := queued,
                             running_slots := running,
                             open_slots := some (pool.slots - occupied) }
    ({ s with pools := aset s.pools name pool' }, some pool')
  | none => (s, none)

def InstanceStore.add_variable (s : InstanceStore) (v : Variable) : InstanceStore :=
  { s with variables_ := aset s.variables_ v.key v }

def InstanceStore.get_variable (s : InstanceStore) (key : String) : Option Variable :=
  aget s.variables_ key

def InstanceStore.add_connection (s : InstanceStore) (connection : Connection) : InstanceStore :=
  { s with connections := aset s.connections connection.conn_id connection }

def InstanceStore.get_connection (s : InstanceStore) (conn_id : String) : Option Connection :=
  aget s.connections conn_id

def InstanceStore.add_provider (s : InstanceStore) (provider : Provider) : InstanceStore :=
  { s with providers := aset s.providers provider.package_name provider }

def InstanceStore.get_provider (s : InstanceStore) (package_name : String) : Option Provider :=
  aget s.providers package_name

/-! ## Request contract layer (api.py)

Each route handler becomes a pure function returning the possibly-updated
store paired with an `Except`: `.error` models a raised `HTTPException`
(in the source a raise happens before any store mutation, so the error
case always carries the store unchanged). `now` stands for
`datetime.utcnow()`, and the `manual__<timestamp>` run-id format is
abstracted to `"manual__" ++ toString now`. -/

structure HTTPException where
  status_code : Int
  detail : String
deriving DecidableEq, Repr

instance {ε α : Type} [DecidableEq ε] [DecidableEq α] : DecidableEq (Except ε α) := fun x y =>
  match x, y with
  | .error a, .error b => decidable_of_iff (a = b) (by simp)
  | .ok a, .ok b => decidable_of_iff (a = b) (by simp)
  | .error _, .ok _ => .isFalse (by simp)
  | .ok _, .error _ => .isFalse (by simp)

namespace Api

def create_dag_run (s : InstanceStore) (dag_id : String) (dag_run : DAGRun) (now : Int) :
    InstanceStore × Except HTTPException DAGRun :=
  if acontains s.dags dag_id = false then
    (s, .error ⟨404, "DAG not found"⟩)
  else
    let dr1 := { dag_run with dag_id := dag_id }
    let dr2 := if dr1.run_id = "" then { dr1 with run_id := "manual__" ++ toString now } else dr1
    -- `execution_date` is a plain datetime, always truthy in Python, so the
    -- source's `if not dag_run.execution_date` branch never fires
    let dr3 := if dr2.start_date = none then { dr2 with start_date := some now } else dr2
    (s.add_dag_run dr3, .ok dr3)

def set_task_instance_state (s : InstanceStore) (dag_id run_id task_id state : String)
    (now : Int) : InstanceStore × Except HTTPException TaskInstanceActionResponse :=
  match s.get_task_instance dag_id run_id task_id with
  | none => (s, .error ⟨404, "Task instance not found"⟩)
  | some ti0 =>
    let ti1 := { ti0 with state := state }
    let ti2 :=
      if state = "running" then
        { ti1 with start_date := some now, end_date := none }
      else if state = "success" ∨ state = "failed" ∨ state = "skipped" then
        let tia := if ti1.start_date = none then { ti1 with start_date := some now } else ti1
        let tib := { tia with end_date := some now }
        match tib.start_date with
        | some sd => { tib with duration := some (now - sd) }
        | none => tib
      else ti1
    (s.add_task_instance ti2,
     .ok ⟨task_id, dag_id, run_id, state, "Task instance state set to " ++ state⟩)

def clear_task_instance (s : InstanceStore) (dag_id run_id task_id : String)
    (clear_request : ClearTaskInstance) :
    InstanceStore × Except HTTPException TaskInstanceActionResponse :=
  match s.get_task_instance dag_id run_id task_id with
  | none => (s, .error ⟨404, "Task instance not found"⟩)
  | some ti =>
    let sc1 := true
    let sc2 := if clear_request.only_failed ∧ ti.state ≠ "failed" then false else sc1
    let should_clear := if clear_request.only_running ∧ ti.state ≠ "running" then false else sc2
    if should_clear ∧ ¬ clear_request.dry_run then
      -- the response reads the state field of the mutated (cleared) instance
      (s.clear_task_instance ti,
       .ok ⟨task_id, dag_id, run_id, ti.toCleared.state, "Task instance cleared"⟩)
    else
      (s, .ok ⟨task_id, dag_id, run_id, ti.state,
               "Task instance not cleared (dry run or filter conditions not met)"⟩)

def get_task_logs (s : InstanceStore) (dag_id run_id task_id : String) (try_number : Int)
    (now : Int) : InstanceStore × TaskLog :=
  match s.get_task_log dag_id run_id task_id try_number with
  | some task_log => (s, task_log)
  | none =>
    let task_log : TaskLog :=
      ⟨try_number,
       "No logs found for task " ++ task_id ++ " (try " ++ toString try_number ++ ")", now⟩
    (s.add_task_log dag_id run_id task_id try_number task_log, task_log)

def create_xcom_entry (s : InstanceStore) (dag_id run_id task_id : String) (xcom : XCom) :
    InstanceStore × Except HTTPException XCom :=
  let x := { xcom with dag_id := dag_id, run_id := some run_id, task_id := task_id }
  (s.add_xcom_value x, .ok x)

def create_connection (s : InstanceStore) (connection : Connection) :
    InstanceStore × Except HTTPException Connection :=
  if (s.get_connection connection.conn_id).isSome then
    (s, .error ⟨409, "Connection " ++ connection.conn_id ++ " already exists"⟩)
  else
    (s.add_connection connection, .ok connection)

def update_connection (s : InstanceStore) (conn_id : String) (connection : Connection) :
    InstanceStore × Except HTTPException Connection :=
  if (s.get_connection conn_id).isNone then
    (s, .error ⟨404, "Connection " ++ conn_id ++ " not found"⟩)
  else
    let c := { connection with conn_id := conn_id }
    (s.add_connection c, .ok c)

def create_variable (s : InstanceStore) (v : Variable) :
    InstanceStore × Except HTTPException Variable :=
  if (s.get_variable v.key).isSome then
    (s, .error ⟨409, "Variable " ++ v.key ++ " already exists"⟩)
  else
    (s.add_variable v, .ok v)

def update_variable (s : InstanceStore) (key : String) (v : Variable) :
    InstanceStore × Except HTTPException Variable :=
  if (s.get_variable key).isNone then
    (s, .error ⟨404, "Variable " ++ key ++ " not found"⟩)
  else
    let v2 := { v with key := key }
    (s.add_variable v2, .ok v2)

def create_pool (s : InstanceStore) (pool : Pool) :
    InstanceStore × Except HTTPException Pool :=
  if (s.get_pool pool.name).isSome then
    (s, .error ⟨409, "Pool " ++ pool.name ++ " already exists"⟩)
  else
    (s.add_pool pool, .ok pool)

def update_pool (s : InstanceStore) (pool_name : String) (pool : Pool) :
    InstanceStore × Except HTTPException Pool :=
  if (s.get_pool pool_name).isNone then
    (s, .error ⟨404, "Pool " ++ pool_name ++ " not found"⟩)
  else
    let p := { pool with name := pool_name }
    (s.add_pool p, .ok p)

def update_pool_slots (s : InstanceStore) (pool_name : String)
    (occupied_slots queued_slots running_slots : Option Int) :
    InstanceStore × Except HTTPException Pool :=
  match s.get_pool pool_name with
  | none => (s, .error ⟨404, "Pool " ++ pool_name ++ " not found"⟩)
  | some pool =>
    -- update only provided slot counts (`x if x is not None else pool.x`)
    let occupied := occupied_slots.getD pool.occupied_slots
    let queued := queued_slots.getD pool.queued_slots
    let running := running_slots.getD pool.running_slots
    match s.update_pool_slots pool_name occupied queued running with
    | (s', some updated_pool) => (s', .ok updated_pool)
    | (s', none) => (s', .error ⟨500, "Failed to update pool " ++ pool_name ++ " slots"⟩)

def create_provider (s : InstanceStore) (provider : Provider) :
    InstanceStore × Except HTTPException Provider :=
  if (s.get_provider provider.package_name).isSome then
    (s, .error ⟨409, "Provider " ++ provider.package_name ++ " already exists"⟩)
  else
    (s.add_provider provider, .ok provider)

def update_provider (s : InstanceStore) (provider_name : String) (provider : Provider) :
    InstanceStore × Except HTTPException Provider :=
  if (s.get_provider provider_name).isNone then
    (s, .error ⟨404, "Provider " ++ provider_name ++ " not found"⟩)
  else
    let p := { provider with package_name := provider_name }
    (s.add_provider p, .ok p)

end Api

/-! ## Registry and server (store.py class MockStore, server.py class MockServer) -/

structure MockStore where
  instances : List (String × InstanceStore) := []
deriving DecidableEq, Repr

/-- Lookup with lazy creation (`MockStore.get_instance`): the store for an
unknown identifier is created and registered exactly once; the possibly
extended registry is returned alongside the store. -/
def MockStore.get_instance (m : MockStore) (instance_id : String) :
    MockStore × InstanceStore :=
  match aget m.instances instance_id with
  | some s => (m, s)
  | none =>
    let s := InstanceStore.init instance_id
    ({ instances := aset m.instances instance_id s }, s)

def MockStore.list_instances (m : MockStore) : List String :=
  m.instances.map Prod.fst

/-- Registry-level effect of mutating, in place, the store object returned
by `get_instance`: in the source the registry maps the identifier to the
very same Python object (e.g. server.py `start_instance` obtains it via
`store.get_instance` and hands it to `populate_instance`, and every route
handler mutates it), so the mutation is visible through the registry. -/
def MockStore.update_instance (m : MockStore) (instance_id : String)
    (f : InstanceStore → InstanceStore) : MockStore :=
  match aget m.instances instance_id with
  | some s => { instances := aset m.instances instance_id (f s) }
  | none => m

/-- Server state (server.py `MockServer`): `servers` maps instance ids to
uvicorn server handles, which carry no state relevant here. -/
structure MockServer where
  servers : List (String × Unit) := []
deriving DecidableEq, Repr

/-- Process state coupling the module-level `server` (server.py) and the
module-level `store` (store.py). -/
structure ServerProcess where
  server : MockServer
  store : MockStore
deriving DecidableEq, Repr

/-- Effect of `MockServer.stop_instance` on the process state: it shuts the
uvicorn server down and deletes the id from `self.servers`; it never
touches the module-level `MockStore`. -/
def ServerProcess.stop_instance (p : ServerProcess) (instance_id : String) : ServerProcess :=
  if acontains p.server.servers instance_id then
    { p with server := { servers := adel p.server.servers instance_id } }
  else
    p

/-! ## Dictionary lemmas -/

theorem aget_aset_self {κ α : Type} [DecidableEq κ] (m : List (κ × α)) (k : κ) (v : α) :
    aget (aset m k v) k = some v := by
  induction m with
  | nil => simp [aget, aset]
  | cons hd tl ih =>
    obtain ⟨k1, v1⟩ := hd
    by_cases h : k1 = k
    · simp [aget, aset, h]
    · simp [aget, aset, h, ih]

theorem aget_aset_ne {κ α : Type} [DecidableEq κ] (m : List (κ × α)) (k k' : κ) (v : α)
    (h : k' ≠ k) : aget (aset m k v) k' = aget m k' := by
  induction m with
  | nil => simp [aget, aset, Ne.symm h]
  | cons hd tl ih =>
    obtain ⟨k1, v1⟩ := hd
    by_cases h1 : k1 = k
    · subst h1
      simp [aget, aset, Ne.symm h]
    · simp [aget, aset, h1, ih]

/-! ## Sample entities used by the concrete witnesses -/

def sampleDag : DAG := { dag_id := "d1" }

def sampleRun : DAGRun := { dag_id := "d1", run_id := "r1" }

def sampleTI : TaskInstance := { task_id := "t1", dag_id := "d1", run_id := "r1" }

def sampleLog : TaskLog := { try_number := 1, content := "line", timestamp := 3 }

def sampleVar : Variable := { key := "k1", value := "v1" }

def sampleConn : Connection := { conn_id := "c1", conn_type := "http" }

def samplePool : Pool := mkPool "p1" 10 none 0 0 0 none

def sampleProvider : Provider :=
  { package_name := "pkg1", version := "1.0", provider_name := "prov" }

def sampleXCom : XCom :=
  { key := "k", value := "v", timestamp := 5, task_id := "t1", dag_id := "d1",
    run_id := some "r1" }

/-! ## Claims -/

/-- C1 (amended): for every entity kind, the store's `add_*` upsert is a
total create-or-replace: after `add e`, `get` at `e`'s natural key returns
`e`, and a second `add` at the same natural key leaves only the latest
payload retrievable — with the qualification, forced by the source's
`if xcom.run_id:` guard, that for XComs this holds when the entity's
`run_id` is a non-empty string. -/
theorem C1_upsert_create_or_replace
    (s : InstanceStore)
    (d d' : DAG) (hd : d.dag_id = d'.dag_id)
    (dr dr' : DAGRun) (hdr1 : dr.dag_id = dr'.dag_id) (hdr2 : dr.run_id = dr'.run_id)
    (ti ti' : TaskInstance) (hti1 : ti.dag_id = ti'.dag_id) (hti2 : ti.run_id = ti'.run_id)
    (hti3 : ti.task_id = ti'.task_id)
    (lg lg' : TaskLog) (ld lr lt : String) (ln : Int)
    (v v' : Variable) (hv : v.key = v'.key)
    (c c' : Connection) (hc : c.conn_id = c'.conn_id)
    (p p' : Pool) (hp : p.name = p'.name)
    (pr pr' : Provider) (hpr : pr.package_name = pr'.package_name)
    (x x' : XCom) (rid : String) (hrid : rid ≠ "") (hxr : x.run_id = some rid)
    (hx1 : x.dag_id = x'.dag_id) (hx2 : x.task_id = x'.task_id) (hx3 : x.key = x'.key)
    (hxr' : x'.run_id = some rid) :
    ((s.add_dag d).get_dag d.dag_id = some d ∧
      ((s.add_dag d).add_dag d').get_dag d.dag_id = some d') ∧
    ((s.add_dag_run dr).get_dag_run dr.dag_id dr.run_id = some dr ∧
      ((s.add_dag_run dr).add_dag_run dr').get_dag_run dr.dag_id dr.run_id = some dr') ∧
    ((s.add_task_instance ti).get_task_instance ti.dag_id ti.run_id ti.task_id = some ti ∧
      ((s.add_task_instance ti).add_task_instance ti').get_task_instance
        ti.dag_id ti.run_id ti.task_id = some ti') ∧
    ((s.add_task_log ld lr lt ln lg).get_task_log ld lr lt ln = some lg ∧
      ((s.add_task_log ld lr lt ln lg).add_task_log ld lr lt ln lg').get_task_log
        ld lr lt ln = some lg') ∧
    ((s.add_variable v).get_variable v.key = some v ∧
      ((s.add_variable v).add_variable v').get_variable v.key = some v') ∧
    ((s.add_connection c).get_connection c.conn_id = some c ∧
      ((s.add_connection c).add_connection c').get_connection c.conn_id = some c') ∧
    ((s.add_pool p).get_pool p.name = some p ∧
      ((s.add_pool p).add_pool p').get_pool p.name = some p') ∧
    ((s.add_provider pr).get_provider pr.package_name = some pr ∧
      ((s.add_provider pr).add_provider pr').get_provider pr.package_name = some pr') ∧
    ((s.add_xcom_value x).get_xcom_value x.dag_id x.task_id x.key (some rid) = some x ∧
      ((s.add_xcom_value x).add_xcom_value x').get_xcom_value
        x.dag_id x.task_id x.key (some rid) = some x') := by
  refine ⟨⟨?_, ?_⟩, ⟨?_, ?_⟩, ⟨?_, ?_⟩, ⟨?_, ?_⟩, ⟨?_, ?_⟩, ⟨?_, ?_⟩, ⟨?_, ?_⟩, ⟨?_, ?_⟩,
    ⟨?_, ?_⟩⟩
  · simp [InstanceStore.add_dag, InstanceStore.get_dag, aget_aset_self]
  · simp [InstanceStore.add_dag, InstanceStore.get_dag, hd, aget_aset_self]
  · simp [InstanceStore.add_dag_run, InstanceStore.get_dag_run, aget_aset_self]
  · simp [InstanceStore.add_dag_run, InstanceStore.get_dag_run, hdr1, hdr2, aget_aset_self]
  · simp [InstanceStore.add_task_instance, InstanceStore.get_task_instance, aget_aset_self]
  · simp [InstanceStore.add_task_instance, InstanceStore.get_task_instance, hti1, hti2, hti3,
      aget_aset_self]
  · simp [InstanceStore.add_task_log, InstanceStore.get_task_log, aget_aset_self]
  · simp [InstanceStore.add_task_log, InstanceStore.get_task_log, aget_aset_self]
  · simp [InstanceStore.add_variable, InstanceStore.get_variable, aget_aset_self]
  · simp [InstanceStore.add_variable, InstanceStore.get_variable, hv, aget_aset_self]
  · simp [InstanceStore.add_connection, InstanceStore.get_connection, aget_aset_self]
  · simp [InstanceStore.add_connection, InstanceStore.get_connection, hc, aget_aset_self]
  · simp [InstanceStore.add_pool, InstanceStore.get_pool, aget_aset_self]
  · simp [InstanceStore.add_pool, InstanceStore.get_pool, hp, aget_aset_self]
  · simp [InstanceStore.add_provider, InstanceStore.get_provider, aget_aset_self]
  · simp [InstanceStore.add_provider, InstanceStore.get_provider, hpr, aget_aset_self]
  · simp [InstanceStore.add_xcom_value, InstanceStore.get_xcom_value, hxr, hrid,
      aget_aset_self]
  · simp [InstanceStore.add_xcom_value, InstanceStore.get_xcom_value, hxr, hxr', hrid,
      hx1, hx2, hx3, aget_aset_self]

/-- C1 witness: the amended statement instantiated at concrete entities. -/
theorem C1_upsert_witness :
    (((InstanceStore.init "i").add_connection sampleConn).get_connection "c1" =
        some sampleConn ∧
      (((InstanceStore.init "i").add_connection sampleConn).add_connection
          { sampleConn with host := some "h" }).get_connection "c1" =
        some { sampleConn with host := some "h" }) ∧
    (((InstanceStore.init "i").add_xcom_value sampleXCom).get_xcom_value "d1" "t1" "k"
        (some "r1") = some sampleXCom) := by
  have h := C1_upsert_create_or_replace (InstanceStore.init "i")
    sampleDag sampleDag rfl
    sampleRun sampleRun rfl rfl
    sampleTI sampleTI rfl rfl rfl
    sampleLog sampleLog "d1" "r1" "t1" 1
    sampleVar sampleVar rfl
    sampleConn { sampleConn with host := some "h" } rfl
    samplePool samplePool rfl
    sampleProvider sampleProvider rfl
    sampleXCom sampleXCom "r1" (by decide) rfl rfl rfl rfl rfl
  exact ⟨h.2.2.2.2.2.1, h.2.2.2.2.2.2.2.2.1⟩

/-- C1 counterexample: the claim as stated fails for the XCom kind: an XCom
whose `run_id` is `None` is silently dropped by `add_xcom_value`, so the
subsequent `get` at its natural key (no run discriminator) returns `none`
rather than the entity. -/
theorem C1_counterexample :
    ((InstanceStore.init "i").add_xcom_value
        { key := "k", value := "v", task_id := "t", dag_id := "d" }).get_xcom_value
      "d" "t" "k" none = none := by decide

/-! ## C2: XCom lookup without run_id -/

/-- Characterization of what the untagged XCom lookup returns: an entry of
the collection whose timestamp is maximal, and — on a timestamp tie — the
one inserted earliest (every entry strictly before it in insertion order
has a strictly smaller timestamp). -/
def firstMaxSpec (l : List XCom) (m : XCom) : Prop :=
  (∀ y ∈ l, y.timestamp ≤ m.timestamp) ∧
  ∃ l1 l2, l = l1 ++ m :: l2 ∧ ∀ z ∈ l1, z.timestamp < m.timestamp

theorem foldl_xcomStep_firstMax :
    ∀ (xs : List XCom) (x : XCom), firstMaxSpec (x :: xs) (xs.foldl xcomStep x) := by
  intro xs
  induction xs with
  | nil =>
    intro x
    exact ⟨by simp, [], [], by simp, by simp⟩
  | cons y ys ih =>
    intro x
    simp only [List.foldl_cons]
    by_cases h : y.timestamp > x.timestamp
    · rw [show xcomStep x y = y from if_pos h]
      obtain ⟨hmax, l1, l2, hdec, hlt⟩ := ih y
      have hym : y.timestamp ≤ (ys.foldl xcomStep y).timestamp := hmax y (by simp)
      refine ⟨?_, x :: l1, l2, ?_, ?_⟩
      · intro z hz
        rcases List.mem_cons.mp hz with rfl | hz'
        · exact le_trans (le_of_lt h) hym
        · exact hmax z hz'
      · simpa using congrArg (List.cons x) hdec
      · intro z hz
        rcases List.mem_cons.mp hz with rfl | hz'
        · exact lt_of_lt_of_le h hym
        · exact hlt z hz'
    · rw [show xcomStep x y = x from if_neg h]
      obtain ⟨hmax, l1, l2, hdec, hlt⟩ := ih x
      have hyx : y.timestamp ≤ x.timestamp := le_of_not_lt h
      have hmem : ∀ z ∈ x :: y :: ys, z.timestamp ≤ (ys.foldl xcomStep x).timestamp := by
        intro z hz
        rcases List.mem_cons.mp hz with rfl | hz'
        · exact hmax z (by simp)
        · rcases List.mem_cons.mp hz' with rfl | hz''
          · exact le_trans hyx (hmax x (by simp))
          · exact hmax z (List.mem_cons_of_mem x hz'')
      cases l1 with
      | nil =>
        simp only [List.nil_append] at hdec
        injection hdec with h1 h2
        refine ⟨hmem, [], y :: ys, ?_, by simp⟩
        simpa using congrArg (fun t => t :: y :: ys) h1
      | cons a l1' =>
        injection hdec with h1 h2
        subst h1
        have hxlt : x.timestamp < (ys.foldl xcomStep x).timestamp := hlt x (by simp)
        refine ⟨hmem, x :: y :: l1', l2, ?_, ?_⟩
        · simpa using congrArg (fun t => x :: y :: t) h2
        · intro z hz
          rcases List.mem_cons.mp hz with rfl | hz'
          · exact hxlt
          · rcases List.mem_cons.mp hz' with rfl | hz''
            · exact lt_of_le_of_lt hyx hxlt
            · exact hlt z (List.mem_cons_of_mem x hz'')

def xcomTieA : XCom :=
  { key := "k", value := "va", timestamp := 5, task_id := "t", dag_id := "d",
    run_id := some "a" }

def xcomTieB : XCom :=
  { key := "k", value := "vb", timestamp := 5, task_id := "t", dag_id := "d",
    run_id := some "b" }

/-- C2 counterexample: two entries share the maximal timestamp, yet the
entry returned by the untagged lookup depends on insertion order — the
store holding the same two entries inserted in either order returns
whichever came first — so the tie is not broken by a deterministic
secondary key such as lexicographic `run_id` (in either direction). -/
theorem C2_counterexample :
    (((InstanceStore.init "i").add_xcom_value xcomTieB).add_xcom_value
        xcomTieA).get_xcom_value "d" "t" "k" none = some xcomTieB ∧
    (((InstanceStore.init "i").add_xcom_value xcomTieA).add_xcom_value
        xcomTieB).get_xcom_value "d" "t" "k" none = some xcomTieA ∧
    xcomTieA.timestamp = xcomTieB.timestamp ∧
    xcomTieA ≠ xcomTieB := by decide

/-- C2 (amended): the untagged XCom lookup (run discriminator omitted)
returns an entry with maximum timestamp among those sharing
`(dag_id, task_id, key)`; a timestamp tie is broken by insertion order —
the earliest-inserted entry with the maximal timestamp wins, Python's
`max` keeping the first maximal element — not by a secondary key such as
lexicographic `run_id`. -/
theorem C2_xcom_latest_by_timestamp
    (s : InstanceStore) (dag_id task_id key : String) (m : XCom)
    (h : s.get_xcom_value dag_id task_id key none = some m) :
    firstMaxSpec (s.xcomEntries dag_id task_id key) m := by
  simp only [InstanceStore.get_xcom_value] at h
  cases hl : s.xcomEntries dag_id task_id key with
  | nil => rw [hl] at h; simp [maxByTimestamp] at h
  | cons x xs =>
    rw [hl] at h
    simp only [maxByTimestamp] at h
    obtain rfl := Option.some.inj h
    exact foldl_xcomStep_firstMax xs x

/-- C2 witness: the amended theorem applied to a concrete two-entry store
with a timestamp tie. -/
theorem C2_xcom_latest_witness :
    firstMaxSpec
      ((((InstanceStore.init "i").add_xcom_value xcomTieB).add_xcom_value
          xcomTieA).xcomEntries "d" "t" "k") xcomTieB :=
  C2_xcom_latest_by_timestamp
    (((InstanceStore.init "i").add_xcom_value xcomTieB).add_xcom_value xcomTieA)
    "d" "t" "k" xcomTieB (by decide)

/-! ## C3, C4: pool slot updates -/

/-- C3: for an existing pool, a slot-update request supplying any subset of
the three counters updates exactly the supplied ones; each omitted counter
retains its prior value, and open_slots is recomputed from the resulting
occupied value. -/
theorem C3_pool_update_retains_omitted
    (s : InstanceStore) (name : String) (p : Pool) (hp : s.get_pool name = some p)
    (oc qu ru : Option Int) :
    ∃ p', Api.update_pool_slots s name oc qu ru =
        ({ s with pools := aset s.pools name p' }, .ok p') ∧
      p'.name = p.name ∧ p'.slots = p.slots ∧ p'.description = p.description ∧
      p'.occupied_slots = oc.getD p.occupied_slots ∧
      p'.queued_slots = qu.getD p.queued_slots ∧
      p'.running_slots = ru.getD p.running_slots ∧
      p'.open_slots = some (p.slots - oc.getD p.occupied_slots) := by
  refine ⟨{ p with occupied_slots := oc.getD p.occupied_slots,
                   queued_slots := qu.getD p.queued_slots,
                   running_slots := ru.getD p.running_slots,
                   open_slots := some (p.slots - oc.getD p.occupied_slots) },
    ?_, rfl, rfl, rfl, rfl, rfl, rfl, rfl⟩
  simp [Api.update_pool_slots, InstanceStore.update_pool_slots, hp]

/-- Store after creating Pool "p1" with 10 slots and updating occupied to 3. -/
def sPool3 : InstanceStore :=
  (Api.update_pool_slots ((InstanceStore.init "i").add_pool samplePool) "p1"
    (some 3) none none).1

def poolAfter3 : Pool :=
  { name := "p1", slots := 10, occupied_slots := 3, open_slots := some 7 }

/-- C3 witness: the spec scenario — after slots=10, occupied=3, an update
supplying only queued=2 keeps occupied at 3 and open_slots at 7 while
queued becomes 2. -/
theorem C3_pool_update_witness :
    ∃ p', Api.update_pool_slots sPool3 "p1" none (some 2) none =
        ({ sPool3 with pools := aset sPool3.pools "p1" p' }, .ok p') ∧
      p'.name = poolAfter3.name ∧ p'.slots = poolAfter3.slots ∧
      p'.description = poolAfter3.description ∧
      p'.occupied_slots = (none : Option Int).getD poolAfter3.occupied_slots ∧
      p'.queued_slots = (some 2 : Option Int).getD poolAfter3.queued_slots ∧
      p'.running_slots = (none : Option Int).getD poolAfter3.running_slots ∧
      p'.open_slots = some (poolAfter3.slots - (none : Option Int).getD
        poolAfter3.occupied_slots) :=
  C3_pool_update_retains_omitted sPool3 "p1" poolAfter3 (by decide) none (some 2) none

/-- C4: open_slots always equals slots − occupied_slots afterwards: the
`Pool` constructor ignores any independently supplied open_slots value and
recomputes it, and both the store-level and the api-level slot updates
recompute it from the resulting occupied value. -/
theorem C4_open_slots_derived :
    (∀ (name : String) (slots : Int) (description : Option String) (oc qu ru : Int)
        (op : Option Int),
      (mkPool name slots description oc qu ru op).open_slots = some (slots - oc)) ∧
    (∀ (s : InstanceStore) (name : String) (oc qu ru : Int) (s' : InstanceStore) (p' : Pool),
      s.update_pool_slots name oc qu ru = (s', some p') →
      p'.open_slots = some (p'.slots - p'.occupied_slots) ∧ s'.get_pool name = some p') ∧
    (∀ (s : InstanceStore) (name : String) (oc qu ru : Option Int) (s' : InstanceStore)
        (p' : Pool),
      Api.update_pool_slots s name oc qu ru = (s', .ok p') →
      p'.open_slots = some (p'.slots - p'.occupied_slots) ∧ s'.get_pool name = some p') := by
  refine ⟨?_, ?_, ?_⟩
  · intro name slots description oc qu ru op
    simp [mkPool]
  · intro s name oc qu ru s' p' h
    unfold InstanceStore.update_pool_slots at h
    cases hg : s.get_pool name with
    | none => rw [hg] at h; simp at h
    | some p =>
      rw [hg] at h
      simp only [Prod.mk.injEq, Option.some.injEq] at h
      obtain ⟨h1, h2⟩ := h
      subst h1
      subst h2
      exact ⟨rfl, by simp [InstanceStore.get_pool, aget_aset_self]⟩
  · intro s name oc qu ru s' p' h
    unfold Api.update_pool_slots at h
    cases hg : s.get_pool name with
    | none => rw [hg] at h; simp at h
    | some p =>
      rw [hg] at h
      unfold InstanceStore.update_pool_slots at h
      rw [hg] at h
      simp only [Prod.mk.injEq, Except.ok.injEq] at h
      obtain ⟨h1, h2⟩ := h
      subst h1
      subst h2
      exact ⟨rfl, by simp [InstanceStore.get_pool, aget_aset_self]⟩

/-- Pool "p1" after the further update supplying only queued=2. -/
def poolAfter32 : Pool :=
  { name := "p1", slots := 10, occupied_slots := 3, queued_slots := 2, open_slots := some 7 }

def sPool32 : InstanceStore := (Api.update_pool_slots sPool3 "p1" none (some 2) none).1

/-- C4 witness: the invariant at a concrete creation (with a bogus supplied
open_slots of 99, which is ignored) and at a concrete slot mutation. -/
theorem C4_open_slots_witness :
    (mkPool "p" 10 none 4 0 0 (some 99)).open_slots = some (10 - 4) ∧
    poolAfter32.open_slots = some (poolAfter32.slots - poolAfter32.occupied_slots) ∧
    sPool32.get_pool "p1" = some poolAfter32 :=
  ⟨C4_open_slots_derived.1 "p" 10 none 4 0 0 (some 99),
   C4_open_slots_derived.2.2 sPool3 "p1" none (some 2) none sPool32 poolAfter32 (by decide)⟩

/-! ## C5, C6: task-instance state transitions and clearing -/

/-- C5: setting an existing task instance's state to "running" sets
start_date to now and clears end_date; setting it to a terminal state in
{success, failed, skipped} sets start_date to now if absent, sets end_date
to now, and computes duration = end_date − start_date in seconds, leaving
all three fields non-null. -/
theorem C5_set_state_dates
    (s : InstanceStore) (dag_id run_id task_id : String) (ti : TaskInstance)
    (h : s.get_task_instance dag_id run_id task_id = some ti)
    (hk1 : ti.dag_id = dag_id) (hk2 : ti.run_id = run_id) (hk3 : ti.task_id = task_id)
    (now : Int) (state : String) :
    (state = "running" →
      (Api.set_task_instance_state s dag_id run_id task_id state now).1.get_task_instance
          dag_id run_id task_id =
        some { ti with state := "running", start_date := some now, end_date := none }) ∧
    (state = "success" ∨ state = "failed" ∨ state = "skipped" →
      (Api.set_task_instance_state s dag_id run_id task_id state now).1.get_task_instance
          dag_id run_id task_id =
        some { ti with state := state,
                       start_date := some (ti.start_date.getD now),
                       end_date := some now,
                       duration := some (now - ti.start_date.getD now) }) := by
  constructor
  · rintro rfl
    simp only [Api.set_task_instance_state, h]
    simp [hk1, hk2, hk3, InstanceStore.add_task_instance,
      InstanceStore.get_task_instance, aget_aset_self]
  · intro hst
    cases hs : ti.start_date with
    | none =>
      rcases hst with rfl | rfl | rfl <;>
        · simp only [Api.set_task_instance_state, h]
          simp [hs, hk1, hk2, hk3, InstanceStore.add_task_instance,
            InstanceStore.get_task_instance, aget_aset_self]
    | some sd =>
      rcases hst with rfl | rfl | rfl <;>
        · simp only [Api.set_task_instance_state, h]
          simp [hs, hk1, hk2, hk3, InstanceStore.add_task_instance,
            InstanceStore.get_task_instance, aget_aset_self]

/-- Store holding the single sample task instance. -/
def sTI : InstanceStore := (InstanceStore.init "i").add_task_instance sampleTI

/-- The sample task instance after being set to "running" at time 100. -/
def tiRunning : TaskInstance :=
  { sampleTI with state := "running", start_date := some 100, end_date := none }

def sTIRunning : InstanceStore :=
  (Api.set_task_instance_state sTI "d1" "r1" "t1" "running" 100).1

/-- C5 witness: the spec scenario — (d1,r1,t1) set to "running" at 100 gets
start_date 100 and no end_date; then set to "success" at 105 it keeps
start_date 100, gets end_date 105 and duration 5 seconds. -/
theorem C5_set_state_witness :
    sTIRunning.get_task_instance "d1" "r1" "t1" =
      some { sampleTI with state := "running", start_date := some 100, end_date := none } ∧
    (Api.set_task_instance_state sTIRunning "d1" "r1" "t1" "success" 105).1.get_task_instance
        "d1" "r1" "t1" =
      some { tiRunning with state := "success",
                            start_date := some ((some 100 : Option Int).getD 105),
                            end_date := some 105,
                            duration := some (105 - (some 100 : Option Int).getD 105) } :=
  ⟨(C5_set_state_dates sTI "d1" "r1" "t1" sampleTI (by decide) rfl rfl rfl 100
      "running").1 rfl,
   (C5_set_state_dates sTIRunning "d1" "r1" "t1" tiRunning (by decide) rfl rfl rfl 105
      "success").2 (Or.inl rfl)⟩

/-- C6: clearing an existing task instance is performed only when dry_run
is false and the requested filters hold (only_failed requires state
"failed", only_running requires state "running"); a failed check is a
no-op reported without error with the store untouched; a performed clear
leaves the instance with state "none", try_number 1 and no
start_date/end_date/duration, regardless of its prior state. -/
theorem C6_clear_task_instance
    (s : InstanceStore) (dag_id run_id task_id : String) (ti : TaskInstance)
    (h : s.get_task_instance dag_id run_id task_id = some ti)
    (hk1 : ti.dag_id = dag_id) (hk2 : ti.run_id = run_id) (hk3 : ti.task_id = task_id)
    (req : ClearTaskInstance) :
    ((req.dry_run = true ∨ (req.only_failed = true ∧ ti.state ≠ "failed") ∨
        (req.only_running = true ∧ ti.state ≠ "running")) →
      Api.clear_task_instance s dag_id run_id task_id req =
        (s, .ok ⟨task_id, dag_id, run_id, ti.state,
          "Task instance not cleared (dry run or filter conditions not met)"⟩)) ∧
    (req.dry_run = false → (req.only_failed = true → ti.state = "failed") →
      (req.only_running = true → ti.state = "running") →
      (Api.clear_task_instance s dag_id run_id task_id req).2 =
          .ok ⟨task_id, dag_id, run_id, "none", "Task instance cleared"⟩ ∧
        (Api.clear_task_instance s dag_id run_id task_id req).1.get_task_instance
            dag_id run_id task_id =
          some { ti with state := "none", try_number := 1, start_date := none,
                         end_date := none, duration := none }) := by
  constructor
  · intro hc
    rcases hc with hdr | ⟨hof, hsf⟩ | ⟨hor, hsr⟩
    · simp [Api.clear_task_instance, h, hdr]
    · simp [Api.clear_task_instance, h, hof, hsf]
    · simp [Api.clear_task_instance, h, hor, hsr]
  · intro hdr hof hor
    have h1 : ¬(req.only_failed = true ∧ ti.state ≠ "failed") := by
      rintro ⟨ha, hb⟩; exact hb (hof ha)
    have h2 : ¬(req.only_running = true ∧ ti.state ≠ "running") := by
      rintro ⟨ha, hb⟩; exact hb (hor ha)
    constructor
    · simp [Api.clear_task_instance, h, hdr, h1, h2, TaskInstance.toCleared]
    · simp only [Api.clear_task_instance, h]
      simp [hdr, h1, h2, TaskInstance.toCleared, InstanceStore.clear_task_instance,
        InstanceStore.add_task_instance, InstanceStore.get_task_instance,
        hk1, hk2, hk3, aget_aset_self]

/-- C6 witness: at the concrete store, a dry-run request is a no-op
reported with success, and a plain clear of the "running" instance resets
all the fields. -/
theorem C6_clear_witness :
    (Api.clear_task_instance sTIRunning "d1" "r1" "t1" { dry_run := true } =
      (sTIRunning, .ok ⟨"t1", "d1", "r1", tiRunning.state,
        "Task instance not cleared (dry run or filter conditions not met)"⟩)) ∧
    ((Api.clear_task_instance sTIRunning "d1" "r1" "t1" {}).2 =
        .ok ⟨"t1", "d1", "r1", "none", "Task instance cleared"⟩ ∧
      (Api.clear_task_instance sTIRunning "d1" "r1" "t1" {}).1.get_task_instance
          "d1" "r1" "t1" =
        some { tiRunning with state := "none", try_number := 1, start_date := none,
                              end_date := none, duration := none }) :=
  ⟨(C6_clear_task_instance sTIRunning "d1" "r1" "t1" tiRunning (by decide) rfl rfl rfl
      { dry_run := true }).1 (Or.inl rfl),
   (C6_clear_task_instance sTIRunning "d1" "r1" "t1" tiRunning (by decide) rfl rfl rfl
      {}).2 rfl (by intro hx; cases hx) (by intro hx; cases hx)⟩

/-! ## C7: conflict on duplicate create, not-found on update -/

/-- C7: on every independently-keyed resource (connections, variables,
pools, providers), creating under an already-existing natural key fails
with Conflict (409) and leaves the store unchanged, and updating a
non-existent key fails with NotFound (404) and leaves the store
unchanged. -/
theorem C7_conflict_notfound
    (s : InstanceStore)
    (c : Connection) (ce : Connection) (hc : s.get_connection c.conn_id = some ce)
    (cid : String) (c2 : Connection) (hcn : s.get_connection cid = none)
    (v : Variable) (ve : Variable) (hv : s.get_variable v.key = some ve)
    (vk : String) (v2 : Variable) (hvn : s.get_variable vk = none)
    (p : Pool) (pe : Pool) (hp : s.get_pool p.name = some pe)
    (pn : String) (p2 : Pool) (hpn : s.get_pool pn = none)
    (pr : Provider) (pre : Provider) (hpr : s.get_provider pr.package_name = some pre)
    (prn : String) (pr2 : Provider) (hprn : s.get_provider prn = none) :
    Api.create_connection s c =
      (s, .error ⟨409, "Connection " ++ c.conn_id ++ " already exists"⟩) ∧
    Api.update_connection s cid c2 =
      (s, .error ⟨404, "Connection " ++ cid ++ " not found"⟩) ∧
    Api.create_variable s v =
      (s, .error ⟨409, "Variable " ++ v.key ++ " already exists"⟩) ∧
    Api.update_variable s vk v2 =
      (s, .error ⟨404, "Variable " ++ vk ++ " not found"⟩) ∧
    Api.create_pool s p =
      (s, .error ⟨409, "Pool " ++ p.name ++ " already exists"⟩) ∧
    Api.update_pool s pn p2 =
      (s, .error ⟨404, "Pool " ++ pn ++ " not found"⟩) ∧
    Api.create_provider s pr =
      (s, .error ⟨409, "Provider " ++ pr.package_name ++ " already exists"⟩) ∧
    Api.update_provider s prn pr2 =
      (s, .error ⟨404, "Provider " ++ prn ++ " not found"⟩) := by
  refine ⟨?_, ?_, ?_, ?_, ?_, ?_, ?_, ?_⟩
  · simp [Api.create_connection, hc]
  · simp [Api.update_connection, hcn]
  · simp [Api.create_variable, hv]
  · simp [Api.update_variable, hvn]
  · simp [Api.create_pool, hp]
  · simp [Api.update_pool, hpn]
  · simp [Api.create_provider, hpr]
  · simp [Api.update_provider, hprn]

/-- Store holding one entity of each independently-keyed kind. -/
def sKeyed : InstanceStore :=
  ((((InstanceStore.init "i").add_connection sampleConn).add_variable
    sampleVar).add_pool samplePool).add_provider sampleProvider

/-- C7 witness: the spec scenario — creating Connection "c1" again yields
409, updating non-existent "c2" yields 404, and likewise for the other
keyed kinds. -/
theorem C7_conflict_notfound_witness :
    Api.create_connection sKeyed sampleConn =
      (sKeyed, .error ⟨409, "Connection " ++ sampleConn.conn_id ++ " already exists"⟩) ∧
    Api.update_connection sKeyed "c2" sampleConn =
      (sKeyed, .error ⟨404, "Connection " ++ "c2" ++ " not found"⟩) ∧
    Api.create_variable sKeyed sampleVar =
      (sKeyed, .error ⟨409, "Variable " ++ sampleVar.key ++ " already exists"⟩) ∧
    Api.update_variable sKeyed "k2" sampleVar =
      (sKeyed, .error ⟨404, "Variable " ++ "k2" ++ " not found"⟩) ∧
    Api.create_pool sKeyed samplePool =
      (sKeyed, .error ⟨409, "Pool " ++ samplePool.name ++ " already exists"⟩) ∧
    Api.update_pool sKeyed "p2" samplePool =
      (sKeyed, .error ⟨404, "Pool " ++ "p2" ++ " not found"⟩) ∧
    Api.create_provider sKeyed sampleProvider =
      (sKeyed, .error ⟨409, "Provider " ++ sampleProvider.package_name ++ " already exists"⟩) ∧
    Api.update_provider sKeyed "pkg2" sampleProvider =
      (sKeyed, .error ⟨404, "Provider " ++ "pkg2" ++ " not found"⟩) :=
  C7_conflict_notfound sKeyed
    sampleConn sampleConn (by decide) "c2" sampleConn (by decide)
    sampleVar sampleVar (by decide) "k2" sampleVar (by decide)
    samplePool samplePool (by decide) "p2" samplePool (by decide)
    sampleProvider sampleProvider (by decide) "pkg2" sampleProvider (by decide)

/-! ## C8: parent-existence preconditions -/

/-- C8 counterexample: creating an XCom entry under a parent (dag, run,
task) that does not exist does not signal NotFound — the handler performs
no existence check at all: on an empty store it succeeds and mutates the
store, although the DAG "d" is absent. -/
theorem C8_counterexample :
    (Api.create_xcom_entry (InstanceStore.init "i") "d" "r" "t" sampleXCom).2 =
      .ok { sampleXCom with dag_id := "d", run_id := some "r", task_id := "t" } ∧
    (InstanceStore.init "i").get_dag "d" = none ∧
    (Api.create_xcom_entry (InstanceStore.init "i") "d" "r" "t" sampleXCom).1 ≠
      InstanceStore.init "i" := by decide

/-- C8 (amended): creating a run under a non-existent DAG signals NotFound
(404) before the store is touched, the store coming back unchanged; but
this pattern does not extend to XCom entries: creating an XCom entry never
checks its parent and always succeeds. -/
theorem C8_parent_existence
    (s : InstanceStore) (dag_id : String) (dr : DAGRun) (now : Int)
    (h : acontains s.dags dag_id = false) :
    Api.create_dag_run s dag_id dr now = (s, .error ⟨404, "DAG not found"⟩) ∧
    ∀ (r t : String) (x : XCom),
      (Api.create_xcom_entry s dag_id r t x).2 =
        .ok { x with dag_id := dag_id, run_id := some r, task_id := t } := by
  constructor
  · simp [Api.create_dag_run, h]
  · intro r t x
    simp [Api.create_xcom_entry]

/-- C8 witness: the amended statement at the empty store. -/
theorem C8_parent_existence_witness :
    Api.create_dag_run (InstanceStore.init "i") "d" sampleRun 7 =
      (InstanceStore.init "i", .error ⟨404, "DAG not found"⟩) ∧
    ∀ (r t : String) (x : XCom),
      (Api.create_xcom_entry (InstanceStore.init "i") "d" r t x).2 =
        .ok { x with dag_id := "d", run_id := some r, task_id := t } :=
  C8_parent_existence (InstanceStore.init "i") "d" sampleRun 7 (by decide)

/-! ## C9: instance registry and stop -/

def dagX : DAG := { dag_id := "d" }

/-- Registry in which instance "i" was looked up (and so lazily created)
and then had the DAG "d" added through the returned store object. -/
def storeWarm : MockStore :=
  ((MockStore.mk []).get_instance "i").1.update_instance "i" (fun s => s.add_dag dagX)

/-- Process state with instance "i" serving and its warm store. -/
def procI : ServerProcess := { server := { servers := [("i", ())] }, store := storeWarm }

/-- C9 counterexample: after an explicit stop of instance "i" (which
removes it from the server registry), a lookup of "i" in the instance
store registry does not yield a cold, empty store: it returns the same
warm store still holding the DAG added before the stop, because
`stop_instance` never touches the `MockStore` mapping. -/
theorem C9_counterexample :
    acontains (procI.stop_instance "i").server.servers "i" = false ∧
    (((procI.stop_instance "i").store.get_instance "i").2).get_dag "d" = some dagX := by
  decide

/-- C9 (amended): registry lookups are lazily created exactly once —
a second lookup of the same identifier returns the very same store and
leaves the registry unchanged — but the explicit stop operation releases
only the server mapping, never the store registry: the store component of
the process state is untouched by a stop, so a later lookup returns the
old warm store rather than a cold one. -/
theorem C9_registry_stop (m : MockStore) (iid : String) (p : ServerProcess) :
    (m.get_instance iid).1.get_instance iid =
      ((m.get_instance iid).1, (m.get_instance iid).2) ∧
    (p.stop_instance iid).store = p.store := by
  constructor
  · cases hg : aget m.instances iid with
    | some s => simp [MockStore.get_instance, hg]
    | none => simp [MockStore.get_instance, hg, aget_aset_self]
  · cases hc : acontains p.server.servers iid <;>
      simp [ServerProcess.stop_instance, hc]

/-! ## C10: task-log reads synthesize and persist a default entry -/

/-- Default log entry synthesized by the handler when no log is stored
(api.py `get_task_logs`, lines 240-246). -/
def defaultLog (task_id : String) (try_number now : Int) : TaskLog :=
  ⟨try_number,
   "No logs found for task " ++ task_id ++ " (try " ++ toString try_number ++ ")", now⟩

/-- C10: reading logs for a key with no stored entry never signals
NotFound (the handler is total): it synthesizes a default entry whose
content says no logs were found and whose timestamp is now, persists it
into the store as a side effect of the read, and returns it; a second
read of the same key (at any later time) returns the entry stored by the
first read. -/
theorem C10_log_read_synthesizes
    (s : InstanceStore) (dag_id run_id task_id : String) (try_number now : Int)
    (h : s.get_task_log dag_id run_id task_id try_number = none) :
    Api.get_task_logs s dag_id run_id task_id try_number now =
      (s.add_task_log dag_id run_id task_id try_number (defaultLog task_id try_number now),
       defaultLog task_id try_number now) ∧
    (defaultLog task_id try_number now).content =
      "No logs found for task " ++ task_id ++ " (try " ++ toString try_number ++ ")" ∧
    (defaultLog task_id try_number now).timestamp = now ∧
    (s.add_task_log dag_id run_id task_id try_number
        (defaultLog task_id try_number now)).get_task_log dag_id run_id task_id try_number =
      some (defaultLog task_id try_number now) ∧
    ∀ now2 : Int,
      Api.get_task_logs
          (s.add_task_log dag_id run_id task_id try_number
            (defaultLog task_id try_number now))
          dag_id run_id task_id try_number now2 =
        (s.add_task_log dag_id run_id task_id try_number (defaultLog task_id try_number now),
         defaultLog task_id try_number now) := by
  have hstored : (s.add_task_log dag_id run_id task_id try_number
      (defaultLog task_id try_number now)).get_task_log dag_id run_id task_id try_number =
      some (defaultLog task_id try_number now) := by
    simp [InstanceStore.add_task_log, InstanceStore.get_task_log, aget_aset_self]
  refine ⟨?_, rfl, rfl, hstored, ?_⟩
  · simp only [Api.get_task_logs, h, defaultLog]
  · intro now2
    simp only [Api.get_task_logs, hstored]

/-- C10 witness: the theorem at the empty store with concrete ids. -/
theorem C10_log_read_witness :
    Api.get_task_logs (InstanceStore.init "i") "d1" "r1" "t1" 1 50 =
      ((InstanceStore.init "i").add_task_log "d1" "r1" "t1" 1 (defaultLog "t1" 1 50),
       defaultLog "t1" 1 50) ∧
    (defaultLog "t1" 1 50).content =
      "No logs found for task " ++ "t1" ++ " (try " ++ toString (1 : Int) ++ ")" ∧
    (defaultLog "t1" 1 50).timestamp = 50 ∧
    ((InstanceStore.init "i").add_task_log "d1" "r1" "t1" 1
        (defaultLog "t1" 1 50)).get_task_log "d1" "r1" "t1" 1 =
      some (defaultLog "t1" 1 50) ∧
    ∀ now2 : Int,
      Api.get_task_logs
          ((InstanceStore.init "i").add_task_log "d1" "r1" "t1" 1 (defaultLog "t1" 1 50))
          "d1" "r1" "t1" 1 now2 =
        ((InstanceStore.init "i").add_task_log "d1" "r1" "t1" 1 (defaultLog "t1" 1 50),
         defaultLog "t1" 1 50) :=
  C10_log_read_synthesizes (InstanceStore.init "i") "d1" "r1" "t1" 1 50 (by decide)
